import Mathlib

/-!
Verification development for the Music Finder Bot (music_finder_bot.py).

The program is a rule-based instruction parser plus a catalog client.
Strings are modelled as Lean `String` (lists of characters); the Python
regular expressions used by the source are literal-phrase matchers with
optional word boundaries, modelled here by explicit scanning functions.
Character classes (backslash-w, backslash-s, str.lower) are modelled over
the ASCII range, which covers every pattern and vocabulary the program uses.
The two remote HTTP calls of the catalog mode are modelled by an oracle
parameter mapping the query string sent to the remote service to its
observable outcome (an exception, or a decoded response).
-/

namespace MusicFinder

/-- ASCII word character: models the regex word class (letters, digits,
underscore) used by the word-boundary patterns of the source. -/
def isWordChar (c : Char) : Bool := c.isAlphanum || c == '_'

/-- ASCII whitespace: models the regex whitespace class. -/
def isSpaceChar (c : Char) : Bool :=
  c == ' ' || c == '\t' || c == '\n' || c == '\r' || c == '\x0b' || c == '\x0c'

/-- Lower-case a character list: models Python str.lower over ASCII. -/
def lowerL (l : List Char) : List Char := l.map Char.toLower

/-- Case-insensitive character equality (ASCII). -/
def ciEq (c d : Char) : Bool := c.toLower == d.toLower

/-- Case-sensitive character equality. -/
def csEq (c d : Char) : Bool := c == d

/-- Does the pattern start the text, comparing characters with eqc? -/
def startsWithBy (eqc : Char → Char → Bool) : List Char → List Char → Bool
  | [], _ => true
  | _ :: _, [] => false
  | p :: ps, c :: cs => eqc p c && startsWithBy eqc ps cs

/-- Case-insensitive "pattern starts the text". -/
def startsWithCI (pat text : List Char) : Bool := startsWithBy ciEq pat text

/-- Case-sensitive "pattern starts the text". -/
def startsWithCS (pat text : List Char) : Bool := startsWithBy csEq pat text

/-- Substring occurrence with a custom character equality. -/
def containsBy (eqc : Char → Char → Bool) (pat : List Char) : List Char → Bool
  | [] => pat.isEmpty
  | c :: cs => startsWithBy eqc pat (c :: cs) || containsBy eqc pat cs

/-- Case-insensitive substring test: models re.search of a literal pattern
with re.IGNORECASE. -/
def containsCIL (pat text : List Char) : Bool := containsBy ciEq pat text

/-- Case-sensitive substring test: models the Python `in` operator on
strings and re.search of a literal pattern without flags. -/
def containsCSL (pat text : List Char) : Bool := containsBy csEq pat text

/-- String-level case-insensitive substring test. -/
def containsCI (pat s : String) : Bool := containsCIL pat.data s.data

/-- After the pattern has matched at the front of rest, the character that
follows it (if any) must not be a word character: the closing word
boundary of the regex. -/
def boundaryOk (pat rest : List Char) : Bool :=
  match rest.drop pat.length with
  | [] => true
  | c :: _ => !isWordChar c

/-- Scan the text for a whole-word occurrence of the pattern, tracking
whether the previous character was a word character (the opening word
boundary). -/
def wbMatchAux (eqc : Char → Char → Bool) (pat : List Char) (prevIsWord : Bool) :
    List Char → Bool
  | [] => false
  | c :: cs =>
    (!prevIsWord && startsWithBy eqc pat (c :: cs) && boundaryOk pat (c :: cs))
      || wbMatchAux eqc pat (isWordChar c) cs

/-- Whole-word case-insensitive occurrence: models re.search of a literal
pattern wrapped in word boundaries, with re.IGNORECASE. -/
def wbMatchCI (pat text : List Char) : Bool := wbMatchAux ciEq pat false text

/-- Whole-word case-sensitive occurrence: models re.search of a literal
pattern wrapped in word boundaries, without flags. -/
def wbMatchCS (pat text : List Char) : Bool := wbMatchAux csEq pat false text

/-- VOICING_PATTERNS of InstructionParser, in source order; each pattern is
matched as a whole word, case-insensitively. -/
def VOICING_PATTERNS : List (String × String) :=
  [("SATB", "SATB"), ("TB", "TB"), ("TTBB", "TTBB"), ("SSA", "SSA"),
   ("SSAA", "SSAA"), ("SAB", "SAB"), ("tenor-bass", "TB"), ("tenor bass", "TB"),
   ("Tenor-Bass", "TB"), ("Tenor Bass", "TB")]

/-- SKILL_LEVEL_PATTERNS of InstructionParser, in source order; matched as
whole words against the lower-cased instruction. -/
def SKILL_LEVEL_PATTERNS : List (String × String) :=
  [("beginning", "beginning"), ("beginner", "beginning"),
   ("intermediate", "intermediate"), ("advanced", "advanced"),
   ("emerging", "beginning")]

/-- THEME_PATTERNS of InstructionParser, in source order; matched as plain
substrings, case-insensitively, with no word boundaries. -/
def THEME_PATTERNS : List (String × String) :=
  [("Spring Earth", "Spring Earth"), ("Earth theme", "Earth"),
   ("Earth", "Earth"), ("Spring", "Spring")]

/-- The fixed generic nouns scanned for additional keywords. -/
def IMPORTANT_KEYWORDS : List String := ["choir", "choral", "piece", "pieces"]

/-- First attempt of the ensemble-name extraction: the pattern
"for", whitespace, a word, then a colon or full stop, case-insensitive,
searched left to right; the captured word is returned. -/
def ensembleAt1 (l : List Char) : Option (List Char) :=
  if startsWithCI "for".data l then
    let rest := l.drop 3
    let sp := rest.takeWhile isSpaceChar
    if sp.isEmpty then none
    else
      let rest1 := rest.dropWhile isSpaceChar
      let w := rest1.takeWhile isWordChar
      if w.isEmpty then none
      else
        match rest1.drop w.length with
        | ':' :: _ => some w
        | '.' :: _ => some w
        | _ => none
  else none

/-- Second attempt of the ensemble-name extraction: the pattern
"for", whitespace, a word, optional whitespace, then a full stop. -/
def ensembleAt2 (l : List Char) : Option (List Char) :=
  if startsWithCI "for".data l then
    let rest := l.drop 3
    let sp := rest.takeWhile isSpaceChar
    if sp.isEmpty then none
    else
      let rest1 := rest.dropWhile isSpaceChar
      let w := rest1.takeWhile isWordChar
      if w.isEmpty then none
      else
        match (rest1.drop w.length).dropWhile isSpaceChar with
        | '.' :: _ => some w
        | _ => none
  else none

/-- Leftmost-position search for a position-wise matcher. -/
def scanFirst (f : List Char → Option (List Char)) : List Char → Option (List Char)
  | [] => none
  | c :: cs =>
    match f (c :: cs) with
    | some r => some r
    | none => scanFirst f cs

/-- State machine extracting every double-quoted substring, modelling
re.findall of a quote, one-or-more non-quote characters, and a closing
quote: captures are nonempty, non-overlapping, left to right. The state
holds the reversed content of the currently open capture, if any. -/
def findQuotedAux : List Char → Option (List Char) → List (List Char)
  | [], _ => []
  | c :: t, st =>
    if c == '"' then
      match st with
      | none => findQuotedAux t (some [])
      | some acc =>
        if acc.isEmpty then findQuotedAux t (some [])
        else acc.reverse :: findQuotedAux t none
    else
      match st with
      | none => findQuotedAux t none
      | some acc => findQuotedAux t (some (c :: acc))

/-- All double-quoted substrings of the text, in order of appearance. -/
def findQuoted (l : List Char) : List (List Char) := findQuotedAux l none

/-- The keyword loop of parse: append each generic noun found as a
substring of the lower-cased instruction, unless it is already present in
the accumulated keyword list. -/
def addKeywords (low : List Char) : List String → List String → List String
  | acc, [] => acc
  | acc, k :: ks =>
    addKeywords low
      (if containsCSL k.data low && !(acc.contains k) then acc ++ [k] else acc) ks

/-- SearchParameters: the structured record extracted from an instruction.
The source's post-init turns a missing keyword list into the empty list, so
the list field is total here. -/
structure SearchParameters where
  voicing : Option String := none
  theme : Option String := none
  technique : Option String := none
  skillLevel : Option String := none
  ensembleName : Option String := none
  additionalKeywords : List String := []
deriving DecidableEq

/-- InstructionParser.parse. Each field is produced by its own scan of the
instruction, exactly as in the source; the loops with break are first-match
scans over the pattern tables. The second ensemble attempt runs only when
the first produced nothing (a successful first capture is a nonempty word,
hence truthy in the source). -/
def parse (instruction : String) : SearchParameters :=
  let l := instruction.data
  let low := lowerL l
  { voicing := (VOICING_PATTERNS.find? (fun e => wbMatchCI e.1.data l)).map (fun e => e.2)
    skillLevel :=
      (SKILL_LEVEL_PATTERNS.find? (fun e => wbMatchCS e.1.data low)).map (fun e => e.2)
    theme := (THEME_PATTERNS.find? (fun e => containsCIL e.1.data l)).map (fun e => e.2)
    technique :=
      if containsCSL "overtone singing".data low then some "overtone singing" else none
    ensembleName :=
      match scanFirst ensembleAt1 l with
      | some w => some (String.mk w)
      | none => (scanFirst ensembleAt2 l).map String.mk
    additionalKeywords := addKeywords low ((findQuoted l).map String.mk) IMPORTANT_KEYWORDS }

/-- Python truthiness of an optional string: set and nonempty. -/
def truthy : Option String → Bool
  | some t => !t.isEmpty
  | none => false

/-- Python `x or d` for an optional string x and default d. -/
def orDefault : Option String → String → String
  | some t, d => if t.isEmpty then d else t
  | none, d => d

/-- Python `x or ""` for an optional string x. -/
def orEmpty : Option String → String
  | some t => t
  | none => ""

/-- Python str(x) for an optional string x. -/
def strOfOpt : Option String → String
  | some t => t
  | none => "None"

/-- The conditional append of one truthy field to the query part list. -/
def listIf : Option String → List String
  | some t => if t.isEmpty then [] else [t]
  | none => []

/-- SheetMusicAPI.build_search_query: concatenate the truthy fields in
source order, the keywords, and the three fixed trailing terms, joined by
single spaces. -/
def buildSearchQuery (p : SearchParameters) : String :=
  let queryParts :=
    listIf p.voicing ++ listIf p.theme ++ listIf p.technique
      ++ (match p.skillLevel with
          | some sk => if sk.isEmpty then [] else [sk ++ " choir"]
          | none => [])
      ++ listIf p.ensembleName
      ++ p.additionalKeywords
      ++ ["sheet music", "choral piece", "choral music"]
  String.intercalate " " queryParts

/-- One search result record. The technique and url keys are present only
on some records in the source, hence optional here. -/
structure SearchResult where
  title : String
  composer : String
  voicing : String
  theme : String
  description : String
  source : String
  difficulty : String
  technique : Option String := none
  url : Option String := none
deriving DecidableEq

/-- The canned SATB / overtone-singing record of _mock_search. -/
def mockResult1 : SearchResult :=
  { title := "Singing in Tune with Nature"
    composer := "Amanda Cole"
    voicing := "SATB"
    technique := some "Overtone singing / Microtonal just intonation"
    theme := "Nature/Earth"
    description := "SATB choral work utilizing microtonal just intonation tuning, creating shimmering clouds of lush overtones"
    source := "N.E.O. Voice Festival 2020"
    difficulty := "Advanced" }

/-- The canned TB / Earth record of _mock_search. -/
def mockResult2 (p : SearchParameters) : SearchResult :=
  { title := "For the Beauty of the Earth"
    composer := "John Rutter"
    voicing := "TTBB"
    theme := "Earth"
    description := "Celebrates the beauty of the natural world, available in TTBB arrangement"
    source := "Various publishers"
    difficulty := orDefault p.skillLevel "Intermediate" }

/-- The canned beginning tenor-bass record of _mock_search. -/
def mockResult3 : SearchResult :=
  { title := "First Songs for Emerging Tenor-Bass Choir"
    composer := "Mark Patterson (arr.)"
    voicing := "TB"
    theme := "Nature/Earth"
    description := "Collection for emerging tenor-bass choirs including \x27Come Sail Away with Me,\x27 \x27A Future Shared,\x27 and \x27Gloucester Moors\x27"
    source := "Carl Fischer"
    difficulty := "Beginning" }

/-- The generic synthesized record of _mock_search. -/
def genericResult (p : SearchParameters) : SearchResult :=
  { title := "Choral Piece - " ++ orDefault p.voicing "Mixed"
    composer := "Various"
    voicing := orDefault p.voicing "Mixed"
    theme := orDefault p.theme "General"
    description := "Sheet music matching: " ++ orEmpty p.voicing ++ " "
      ++ orEmpty p.theme ++ " " ++ orEmpty p.technique
    source := "Music database"
    difficulty := orDefault p.skillLevel "Various" }

/-- The parameter-keyed canned records of _mock_search, before the generic
fallback. The containment tests are the source's case-sensitive `in`
checks; the guards short-circuit exactly as the Python `and` chains do. -/
def mockCandidates (p : SearchParameters) : List SearchResult :=
  (if p.voicing == some "SATB" && truthy p.theme
      && containsCSL "overtone".data (lowerL (strOfOpt p.technique).data)
   then [mockResult1] else [])
  ++
  (if p.voicing == some "TB" && truthy p.theme
      && containsCSL "Earth".data (strOfOpt p.theme).data
   then mockResult2 p ::
     (if p.skillLevel == some "beginning" then [mockResult3] else [])
   else [])

/-- SheetMusicAPI._mock_search: the canned records for the parameter
combination, or one generic record when none matched. -/
def mockSearch (p : SearchParameters) : List SearchResult :=
  if (mockCandidates p).isEmpty then [genericResult p] else mockCandidates p

/-- One page record of the remote catalog's batch-detail response. -/
structure CPDLPage where
  pageId : String
  title : String
  extract : String
  fullurl : Option String := none
deriving DecidableEq

/-- The observable outcome of the remote interaction of _cpdl_search: a
raised requests.exceptions.RequestException (network error, timeout,
non-success status), any other raised exception, or the decoded pair of
responses (the searched titles and the batch page details). A first
response without usable keys is the titles-empty case; a detail response
without usable keys is the pages-empty case. -/
inductive CPDLOutcome where
  | requestError : CPDLOutcome
  | otherError : CPDLOutcome
  | response : List String → List CPDLPage → CPDLOutcome

/-- ASCII uppercase letter, the regex class A to Z. -/
def isAsciiUpper (c : Char) : Bool := 65 ≤ c.toNat && c.toNat ≤ 90

/-- ASCII lowercase letter, the regex class a to z. -/
def isAsciiLower (c : Char) : Bool := 97 ≤ c.toNat && c.toNat ≤ 122

/-- One capitalized word: an uppercase letter followed by one or more
lowercase letters, maximal; returns the word and the remaining text. -/
def capWord : List Char → Option (List Char × List Char)
  | [] => none
  | c :: cs =>
    if isAsciiUpper c then
      let low := cs.takeWhile isAsciiLower
      if low.isEmpty then none else some (c :: low, cs.drop low.length)
    else none

/-- The starred tail of the composer name pattern: zero or more
repetitions of whitespace plus a capitalized word, greedy; the captured
text includes the matched whitespace. Fuel bounds the recursion by the
text length, which each successful repetition strictly decreases. -/
def nameStarFuel : Nat → List Char → List Char
  | 0, _ => []
  | fuel + 1, l =>
    let sp := l.takeWhile isSpaceChar
    if sp.isEmpty then []
    else
      match capWord (l.dropWhile isSpaceChar) with
      | none => []
      | some (w, rest) => sp ++ w ++ nameStarFuel fuel rest

/-- First alternative of the composer pattern at this position: an opening
parenthesis, one or more non-parenthesis characters, a closing
parenthesis; captures the content. -/
def parenAt : List Char → Option (List Char)
  | '(' :: rest =>
    let content := rest.takeWhile (fun c => c != ')')
    if content.isEmpty then none
    else if (rest.drop content.length).isEmpty then none
    else some content
  | _ => none

/-- Second alternative of the composer pattern at this position: the
literal "by", whitespace, then a capitalized name sequence; captures the
name sequence. -/
def byAt : List Char → Option (List Char)
  | 'b' :: 'y' :: rest =>
    let sp := rest.takeWhile isSpaceChar
    if sp.isEmpty then none
    else
      match capWord (rest.dropWhile isSpaceChar) with
      | none => none
      | some (w, rest2) => some (w ++ nameStarFuel rest2.length rest2)
  | _ => none

/-- Leftmost-first search of the composer pattern: at each position try
the parenthesis alternative, then the "by Name" alternative. -/
def composerSearch : List Char → Option (List Char)
  | [] => none
  | c :: cs =>
    match parenAt (c :: cs) with
    | some r => some r
    | none =>
      match byAt (c :: cs) with
      | some r => some r
      | none => composerSearch cs

/-- The voicing alternatives scanned in the page extract, in source
order. -/
def EXTRACT_VOICINGS : List String :=
  ["SATB", "TB", "TTBB", "SSA", "SSAA", "SAB", "SA", "TTB"]

/-- At one position with the opening word boundary satisfied, try each
voicing alternative in order, requiring the closing word boundary;
captures the matched slice of the text. -/
def extractVoicingAt (prevIsWord : Bool) (l : List Char) : Option (List Char) :=
  if prevIsWord then none
  else
    EXTRACT_VOICINGS.findSome? fun a =>
      if startsWithCI a.data l && boundaryOk a.data l then some (l.take a.data.length)
      else none

/-- Leftmost whole-word case-insensitive occurrence of one of the voicing
alternatives in the extract text. -/
def extractVoicingScan (prevIsWord : Bool) : List Char → Option (List Char)
  | [] => none
  | c :: cs =>
    match extractVoicingAt prevIsWord (c :: cs) with
    | some r => some r
    | none => extractVoicingScan (isWordChar c) cs

/-- The voicing pattern-matched out of a page extract, as in the source's
regex over the extract. -/
def voicingFromExtract (l : List Char) : Option (List Char) :=
  extractVoicingScan false l

/-- UTF-8 bytes of one character's code point. -/
def utf8Bytes (c : Char) : List Nat :=
  let n := c.toNat
  if n < 128 then [n]
  else if n < 2048 then [192 + n / 64, 128 + n % 64]
  else if n < 65536 then [224 + n / 4096, 128 + (n / 64) % 64, 128 + n % 64]
  else [240 + n / 262144, 128 + (n / 4096) % 64, 128 + (n / 64) % 64, 128 + n % 64]

/-- Uppercase hexadecimal digit. -/
def hexDigit (n : Nat) : Char :=
  if n < 10 then Char.ofNat (48 + n) else Char.ofNat (55 + n)

/-- The unreserved bytes urllib.parse.quote never encodes: ASCII letters,
digits, underscore, full stop, hyphen, tilde. -/
def isUnreservedByte (b : Nat) : Bool :=
  (65 ≤ b && b ≤ 90) || (97 ≤ b && b ≤ 122) || (48 ≤ b && b ≤ 57)
    || b == 45 || b == 46 || b == 95 || b == 126

/-- urllib.parse.quote with an empty safe set: percent-encode every
non-unreserved UTF-8 byte, uppercase hexadecimal. -/
def pctEncode (l : List Char) : List Char :=
  l.flatMap fun c =>
    (utf8Bytes c).flatMap fun b =>
      if isUnreservedByte b then [Char.ofNat b]
      else ['%', hexDigit (b / 16), hexDigit (b % 16)]

/-- The page url: the remote canonical link when present, else constructed
from the title by space-to-underscore substitution and percent-encoding. -/
def pageUrl (pg : CPDLPage) : String :=
  match pg.fullurl with
  | some u => u
  | none =>
    "https://www.cpdl.org/wiki/index.php/"
      ++ String.mk (pctEncode (pg.title.data.map fun c => if c == ' ' then '_' else c))

/-- The mapping of one detail page to a SearchResult in _cpdl_search. -/
def mkResult (p : SearchParameters) (pg : CPDLPage) : SearchResult :=
  { title := pg.title
    composer :=
      match composerSearch pg.title.data with
      | some c => String.mk c
      | none => "Unknown"
    voicing :=
      if truthy p.voicing then orDefault p.voicing "Unknown"
      else
        match voicingFromExtract pg.extract.data with
        | some v => String.mk (v.map Char.toUpper)
        | none => orDefault p.voicing "Unknown"
    theme := orDefault p.theme "General"
    description :=
      if 200 < pg.extract.data.length then String.mk (pg.extract.data.take 200) ++ "..."
      else pg.extract
    source := "CPDL (Choral Public Domain Library)"
    url := some (pageUrl pg)
    difficulty := orDefault p.skillLevel "Unknown"
    technique := if truthy p.technique then p.technique else none }

/-- Remove every occurrence of "Spring " from the text, modelling the
source's str.replace on the theme. -/
def replaceSpring (l : List Char) : List Char :=
  match l with
  | [] => []
  | c :: cs =>
    if startsWithCS "Spring ".data (c :: cs) then replaceSpring (cs.drop 6)
    else c :: replaceSpring cs
termination_by l.length
decreasing_by
  all_goals simp [List.length_drop]
  omega

/-- Python str.strip: drop leading and trailing whitespace. -/
def stripL (l : List Char) : List Char :=
  ((l.dropWhile isSpaceChar).reverse.dropWhile isSpaceChar).reverse

/-- Python str.split with no separator: whitespace-delimited words, no
empties; the accumulator holds the reversed current word. -/
def splitWsAux : List Char → List Char → List (List Char)
  | [], acc => if acc.isEmpty then [] else [acc.reverse]
  | c :: cs, acc =>
    if isSpaceChar c then
      if acc.isEmpty then splitWsAux cs [] else acc.reverse :: splitWsAux cs []
    else splitWsAux cs (c :: acc)

def splitWs (l : List Char) : List (List Char) := splitWsAux l []

/-- The common words removed when falling back to the raw query words. -/
def SKIP_WORDS : List String := ["sheet", "music", "choral", "piece", "pieces", "choir"]

/-- The narrower search-term heuristic of _cpdl_search: voicing, theme
with "Spring " stripped, technique unless it is overtone singing; when all
are absent, the first three non-stopword tokens of the full query. -/
def cpdlQueryTerms (p : SearchParameters) (query : String) : List String :=
  let terms :=
    listIf p.voicing
      ++ (match p.theme with
          | some t => if t.isEmpty then [] else [String.mk (stripL (replaceSpring t.data))]
          | none => [])
      ++ (match p.technique with
          | some t =>
            if t.isEmpty then []
            else if (String.mk (lowerL t.data)) ∈ (["overtone singing"] : List String) then []
            else [t]
          | none => [])
  if terms.isEmpty then
    (((splitWs query.data).filter fun w =>
        !(SKIP_WORDS.contains (String.mk (lowerL w)))).map String.mk).take 3
  else terms

/-- The results mapped from a decoded remote response: nothing when the
title search produced no pages, else one record per existing detail page
(identifier "-1" marks a nonexistent page and is skipped). -/
def cpdlCandidates (p : SearchParameters) (titles : List String)
    (pages : List CPDLPage) : List SearchResult :=
  if titles.isEmpty then []
  else (pages.filter fun pg => pg.pageId != "-1").map (mkResult p)

/-- The tail of _cpdl_search on a decoded response: canned fallback when
no result was mapped. -/
def cpdlRespond (p : SearchParameters) (titles : List String)
    (pages : List CPDLPage) : List SearchResult :=
  if (cpdlCandidates p titles pages).isEmpty then mockSearch p
  else cpdlCandidates p titles pages

/-- SheetMusicAPI._cpdl_search: canned fallback when the requests library
is unavailable, when the remote interaction raises, or when it yields no
mappable page; otherwise the mapped results. -/
def cpdlSearch (requestsAvailable : Bool) (oracle : String → CPDLOutcome)
    (query : String) (p : SearchParameters) : List SearchResult :=
  if !requestsAvailable then mockSearch p
  else
    match oracle (String.intercalate " " (cpdlQueryTerms p query)) with
    | CPDLOutcome.requestError => mockSearch p
    | CPDLOutcome.otherError => mockSearch p
    | CPDLOutcome.response titles pages => cpdlRespond p titles pages

/-- SheetMusicAPI._web_search: with no credential it warns and returns the
canned results; the placeholder implementation returns them regardless. -/
def webSearch (apiKey : Option String) (p : SearchParameters) : List SearchResult :=
  match apiKey with
  | none => mockSearch p
  | some _ => mockSearch p

/-- SheetMusicAPI._openai_search: same stub shape as _web_search. -/
def openaiSearch (apiKey : Option String) (p : SearchParameters) : List SearchResult :=
  match apiKey with
  | none => mockSearch p
  | some _ => mockSearch p

/-- SheetMusicAPI.search: build the full query, then dispatch on the
configured api_type string; any unrecognized mode is the local fallback. -/
def search (apiType : String) (apiKey : Option String) (requestsAvailable : Bool)
    (oracle : String → CPDLOutcome) (p : SearchParameters) : List SearchResult :=
  let query := buildSearchQuery p
  if apiType == "cpdl" then cpdlSearch requestsAvailable oracle query p
  else if apiType == "web_search" then webSearch apiKey p
  else if apiType == "openai" then openaiSearch apiKey p
  else mockSearch p

/-- The dictionary returned by MusicFinderBot.process_instruction; the
parsed_parameters entry is the field dictionary of the record. -/
structure ProcessOutput where
  instruction : String
  parsedParameters : SearchParameters
  searchResults : List SearchResult
  resultCount : Nat
deriving DecidableEq

/-- MusicFinderBot.process_instruction: parse, search, bundle. -/
def processInstruction (apiType : String) (apiKey : Option String)
    (requestsAvailable : Bool) (oracle : String → CPDLOutcome)
    (instruction : String) : ProcessOutput :=
  let p := parse instruction
  let results := search apiType apiKey requestsAvailable oracle p
  { instruction := instruction
    parsedParameters := p
    searchResults := results
    resultCount := results.length }

/-- The instruction of the second worked scenario of the spec. -/
def scenarioInstruction : String :=
  "Possible TB pieces that are on the Earth theme for Rhapsody. You could add \"beginning Tenor-Bass Choir\" to the search."

/-! ## Helper lemmas -/

theorem find?_eq_of_first {α : Type} (p : α → Bool) (l : List α) (i : Nat)
    (hi : i < l.length) (hp : p (l.get ⟨i, hi⟩) = true)
    (hmin : ∀ (j : Nat) (hj : j < i), p (l.get ⟨j, Nat.lt_trans hj hi⟩) = false) :
    l.find? p = some (l.get ⟨i, hi⟩) := by
  induction l generalizing i with
  | nil => exact absurd hi (Nat.not_lt_zero i)
  | cons a t ih =>
    cases i with
    | zero => exact List.find?_cons_of_pos t hp
    | succ n =>
      have ha : p a = false := hmin 0 (Nat.succ_pos n)
      rw [List.find?_cons_of_neg t (by simp [ha])]
      exact ih n (Nat.lt_of_succ_lt_succ hi) hp
        (fun j hj => hmin (j + 1) (Nat.succ_lt_succ hj))

theorem addKeywords_eq (low : List Char) (ks : List String) :
    ∀ acc : List String, ks.Nodup →
      addKeywords low acc ks
        = acc ++ ks.filter (fun k => containsCSL k.data low && !(acc.contains k)) := by
  induction ks with
  | nil => intro acc _; simp [addKeywords]
  | cons k ks ih =>
    intro acc h
    obtain ⟨hk, hnd⟩ := List.nodup_cons.mp h
    have hfil : ks.filter (fun k2 => containsCSL k2.data low && !((acc ++ [k]).contains k2))
        = ks.filter (fun k2 => containsCSL k2.data low && !(acc.contains k2)) := by
      apply List.filter_congr
      intro k2 hk2
      have hne : k2 ≠ k := fun he => hk (he ▸ hk2)
      simp [List.mem_append, hne]
    by_cases hct : containsCSL k.data low = true
    · by_cases hmem : k ∈ acc
      · have step : addKeywords low acc (k :: ks) = addKeywords low acc ks := by
          show addKeywords low
            (if containsCSL k.data low && !(acc.contains k) then acc ++ [k] else acc) ks = _
          simp [hmem]
        rw [step, ih acc hnd, List.filter_cons]
        simp [hmem]
      · have step : addKeywords low acc (k :: ks) = addKeywords low (acc ++ [k]) ks := by
          show addKeywords low
            (if containsCSL k.data low && !(acc.contains k) then acc ++ [k] else acc) ks = _
          simp [hct, hmem]
        rw [step, ih (acc ++ [k]) hnd, hfil, List.filter_cons]
        simp [hct, hmem]
    · have step : addKeywords low acc (k :: ks) = addKeywords low acc ks := by
        show addKeywords low
          (if containsCSL k.data low && !(acc.contains k) then acc ++ [k] else acc) ks = _
        simp [hct]
      rw [step, ih acc hnd, List.filter_cons]
      simp [hct]

theorem parse_voicing_eq_of_first (s : String) (i : Nat)
    (hi : i < VOICING_PATTERNS.length)
    (hp : wbMatchCI (VOICING_PATTERNS.get ⟨i, hi⟩).1.data s.data = true)
    (hmin : ∀ (j : Nat) (hj : j < i),
      wbMatchCI (VOICING_PATTERNS.get ⟨j, Nat.lt_trans hj hi⟩).1.data s.data = false) :
    (parse s).voicing = some (VOICING_PATTERNS.get ⟨i, hi⟩).2 := by
  show (VOICING_PATTERNS.find? (fun e => wbMatchCI e.1.data s.data)).map (fun e => e.2) = _
  rw [find?_eq_of_first (fun e => wbMatchCI e.1.data s.data) VOICING_PATTERNS i hi hp hmin]
  rfl

theorem parse_theme_eq_of_first (s : String) (i : Nat)
    (hi : i < THEME_PATTERNS.length)
    (hp : containsCIL (THEME_PATTERNS.get ⟨i, hi⟩).1.data s.data = true)
    (hmin : ∀ (j : Nat) (hj : j < i),
      containsCIL (THEME_PATTERNS.get ⟨j, Nat.lt_trans hj hi⟩).1.data s.data = false) :
    (parse s).theme = some (THEME_PATTERNS.get ⟨i, hi⟩).2 := by
  show (THEME_PATTERNS.find? (fun e => containsCIL e.1.data s.data)).map (fun e => e.2) = _
  rw [find?_eq_of_first (fun e => containsCIL e.1.data s.data) THEME_PATTERNS i hi hp hmin]
  rfl

theorem mockSearch_ne_nil (p : SearchParameters) : mockSearch p ≠ [] := by
  unfold mockSearch
  cases hc : mockCandidates p with
  | nil => simp [hc]
  | cons a t => simp [hc]

theorem cpdlRespond_ne_nil (p : SearchParameters) (ts : List String)
    (pgs : List CPDLPage) : cpdlRespond p ts pgs ≠ [] := by
  unfold cpdlRespond
  cases hc : cpdlCandidates p ts pgs with
  | nil => simp [hc, mockSearch_ne_nil p]
  | cons a t => simp [hc]

theorem cpdlSearch_ne_nil (ra : Bool) (oracle : String → CPDLOutcome)
    (query : String) (p : SearchParameters) : cpdlSearch ra oracle query p ≠ [] := by
  unfold cpdlSearch
  cases ra with
  | false => simpa using mockSearch_ne_nil p
  | true =>
    cases ho : oracle (String.intercalate " " (cpdlQueryTerms p query)) with
    | requestError => simp [ho, mockSearch_ne_nil p]
    | otherError => simp [ho, mockSearch_ne_nil p]
    | response titles pages => simp [ho, cpdlRespond_ne_nil p titles pages]

theorem webSearch_ne_nil (apiKey : Option String) (p : SearchParameters) :
    webSearch apiKey p ≠ [] := by
  cases apiKey <;> simpa [webSearch] using mockSearch_ne_nil p

theorem openaiSearch_ne_nil (apiKey : Option String) (p : SearchParameters) :
    openaiSearch apiKey p ≠ [] := by
  cases apiKey <;> simpa [openaiSearch] using mockSearch_ne_nil p

/-! ## Claim theorems -/

/-- C1: for every SearchParameters record (the fully defaulted one
included) and every configured mode, credential, library availability and
remote behaviour, the client's search returns a non-empty result list, and
the local fallback generator itself always yields at least one record.
Totality of the Lean functions models the never-raises half of the
contract. -/
theorem c1_search_nonempty (apiType : String) (apiKey : Option String)
    (requestsAvailable : Bool) (oracle : String → CPDLOutcome)
    (p : SearchParameters) :
    search apiType apiKey requestsAvailable oracle p ≠ [] ∧ mockSearch p ≠ [] := by
  refine ⟨?_, mockSearch_ne_nil p⟩
  unfold search
  by_cases h1 : (apiType == "cpdl") = true
  · simp only [h1, if_true]
    exact cpdlSearch_ne_nil requestsAvailable oracle (buildSearchQuery p) p
  · simp only [eq_false_of_ne_true h1, if_false]
    by_cases h2 : (apiType == "web_search") = true
    · simp only [h2, if_true]
      exact webSearch_ne_nil apiKey p
    · simp only [eq_false_of_ne_true h2, if_false]
      by_cases h3 : (apiType == "openai") = true
      · simp only [h3, if_true]
        exact openaiSearch_ne_nil apiKey p
      · simp only [eq_false_of_ne_true h3, if_false]
        exact mockSearch_ne_nil p

/-- Witness for C1 at the fully empty record and the catalog mode with a
failing remote. -/
theorem c1_search_nonempty_witness :
    search "cpdl" none true (fun _ => CPDLOutcome.requestError) {} ≠ [] ∧
    mockSearch {} ≠ [] :=
  c1_search_nonempty "cpdl" none true (fun _ => CPDLOutcome.requestError) {}

/-- C2 counterexample: on the exact scenario instruction, the parsed
additional keywords are not the one-element list the claim states, because
the generic-noun pass appends "choir", "piece" and "pieces" as well. -/
theorem c2_counterexample :
    (parse scenarioInstruction).additionalKeywords ≠ ["beginning Tenor-Bass Choir"] := by
  decide

/-- C2 amended: the scenario instruction parses to voicing TB, theme
Earth, ensemble_name Rhapsody, and additional_keywords equal to the quoted
phrase followed by the generic nouns "choir", "piece", "pieces" found in
the text. -/
theorem c2_scenario_amended :
    (parse scenarioInstruction).voicing = some "TB" ∧
    (parse scenarioInstruction).theme = some "Earth" ∧
    (parse scenarioInstruction).ensembleName = some "Rhapsody" ∧
    (parse scenarioInstruction).additionalKeywords
      = ["beginning Tenor-Bass Choir", "choir", "piece", "pieces"] := by
  decide

/-- C3 counterexample: a repeated quoted substring appears twice in the
additional keywords, so the sequence is not de-duplicated. -/
theorem c3_counterexample :
    (parse "say \"la\" then \"la\"").additionalKeywords = ["la", "la"] ∧
    ¬ (parse "say \"la\" then \"la\"").additionalKeywords.Nodup := by
  decide

/-- C3 amended: the additional keywords are exactly the quoted substrings
verbatim in order of appearance (possibly with repeats), followed by those
generic nouns that occur in the lower-cased text and are not already
present among the quoted substrings; only the noun part is de-duplicated,
and it is duplicate-free. -/
theorem c3_keywords_amended (s : String) :
    (parse s).additionalKeywords
      = (findQuoted s.data).map String.mk
        ++ IMPORTANT_KEYWORDS.filter
            (fun k => containsCSL k.data (lowerL s.data)
              && !(((findQuoted s.data).map String.mk).contains k)) ∧
    (IMPORTANT_KEYWORDS.filter
        (fun k => containsCSL k.data (lowerL s.data)
          && !(((findQuoted s.data).map String.mk).contains k))).Nodup := by
  constructor
  · exact addKeywords_eq (lowerL s.data) IMPORTANT_KEYWORDS
      ((findQuoted s.data).map String.mk) (by decide)
  · exact List.Nodup.filter _ (by decide)

/-- C4 counterexample: a record whose additional keywords contain a
voicing tag is not recovered by re-parsing the built query: the parse of
the query yields voicing SATB while the record's voicing is unset. -/
theorem c4_counterexample :
    (parse (buildSearchQuery { additionalKeywords := ["SATB"] })).voicing = some "SATB" ∧
    ({ additionalKeywords := ["SATB"] } : SearchParameters).voicing = none ∧
    (parse (buildSearchQuery { additionalKeywords := ["SATB"] })).voicing
      ≠ ({ additionalKeywords := ["SATB"] } : SearchParameters).voicing := by
  decide

set_option maxHeartbeats 2000000 in
/-- C4 amended: for every record whose voicing, theme, technique and skill
level are unset or drawn from the parser's vocabularies and whose ensemble
name is unset and keyword list empty, building the full query string and
re-parsing it recovers the record's voicing, theme and technique. -/
theorem c4_roundtrip_amended :
    ∀ v ∈ ([none, some "SATB", some "TB", some "TTBB", some "SSA", some "SSAA",
            some "SAB"] : List (Option String)),
    ∀ t ∈ ([none, some "Spring Earth", some "Earth", some "Spring"] :
            List (Option String)),
    ∀ tech ∈ ([none, some "overtone singing"] : List (Option String)),
    ∀ sk ∈ ([none, some "beginning", some "intermediate", some "advanced"] :
            List (Option String)),
    (parse (buildSearchQuery
      { voicing := v, theme := t, technique := tech, skillLevel := sk })).voicing = v ∧
    (parse (buildSearchQuery
      { voicing := v, theme := t, technique := tech, skillLevel := sk })).theme = t ∧
    (parse (buildSearchQuery
      { voicing := v, theme := t, technique := tech, skillLevel := sk })).technique = tech := by
  decide

/-- Witness for C4 at a fully structured record. -/
theorem c4_roundtrip_witness :
    (parse (buildSearchQuery
      { voicing := some "SATB", theme := some "Earth",
        technique := some "overtone singing", skillLevel := some "beginning" })).voicing
        = some "SATB" ∧
    (parse (buildSearchQuery
      { voicing := some "SATB", theme := some "Earth",
        technique := some "overtone singing", skillLevel := some "beginning" })).theme
        = some "Earth" ∧
    (parse (buildSearchQuery
      { voicing := some "SATB", theme := some "Earth",
        technique := some "overtone singing", skillLevel := some "beginning" })).technique
        = some "overtone singing" :=
  c4_roundtrip_amended (some "SATB") (by decide) (some "Earth") (by decide)
    (some "overtone singing") (by decide) (some "beginning") (by decide)

/-- C5: the voicing of a parse is the tag of the first entry of the fixed
table (in source order) whose pattern occurs as a whole word,
case-insensitively; when no pattern occurs as a whole word the voicing is
unset; in particular "TBD" yields no voicing, the table order (not the
position in the text) picks SATB over TB, and lower-case voicings match. -/
theorem c5_voicing_first_match :
    (∀ (s : String) (i : Nat) (hi : i < VOICING_PATTERNS.length),
        wbMatchCI (VOICING_PATTERNS.get ⟨i, hi⟩).1.data s.data = true →
        (∀ (j : Nat) (hj : j < i),
          wbMatchCI (VOICING_PATTERNS.get ⟨j, Nat.lt_trans hj hi⟩).1.data s.data = false) →
        (parse s).voicing = some (VOICING_PATTERNS.get ⟨i, hi⟩).2) ∧
    (∀ s : String, (∀ e ∈ VOICING_PATTERNS, wbMatchCI e.1.data s.data = false) →
        (parse s).voicing = none) ∧
    (parse "TBD").voicing = none ∧
    (parse "TB music SATB").voicing = some "SATB" ∧
    (parse "satb and ttbb pieces").voicing = some "SATB" := by
  refine ⟨?_, ?_, by decide, by decide, by decide⟩
  · intro s i hi hp hmin
    exact parse_voicing_eq_of_first s i hi hp hmin
  · intro s hnone
    show (VOICING_PATTERNS.find? (fun e => wbMatchCI e.1.data s.data)).map (fun e => e.2) = _
    rw [List.find?_eq_none.mpr (fun e he => by simp [hnone e he])]
    rfl

/-- Witness for C5 at the first table entry. -/
theorem c5_voicing_first_match_witness :
    (parse "SATB choir").voicing = some "SATB" :=
  c5_voicing_first_match.1 "SATB choir" 0 (by decide) (by decide)
    (fun j hj => absurd hj (Nat.not_lt_zero j))

/-- C6: the theme of a parse is the tag of the first entry of the ordered
phrase table whose phrase occurs as a substring, case-insensitively; hence
any text containing "Spring Earth" gets theme "Spring Earth" (not "Earth"
or "Spring"), and a text containing "Earth theme" but not "Spring Earth"
gets the normalized theme "Earth". -/
theorem c6_theme_first_match :
    (∀ (s : String) (i : Nat) (hi : i < THEME_PATTERNS.length),
        containsCIL (THEME_PATTERNS.get ⟨i, hi⟩).1.data s.data = true →
        (∀ (j : Nat) (hj : j < i),
          containsCIL (THEME_PATTERNS.get ⟨j, Nat.lt_trans hj hi⟩).1.data s.data = false) →
        (parse s).theme = some (THEME_PATTERNS.get ⟨i, hi⟩).2) ∧
    (∀ s : String, containsCI "Spring Earth" s = true →
        (parse s).theme = some "Spring Earth") ∧
    (∀ s : String, containsCI "Earth theme" s = true →
        containsCI "Spring Earth" s = false → (parse s).theme = some "Earth") := by
  refine ⟨parse_theme_eq_of_first, ?_, ?_⟩
  · intro s h
    have hi : (0 : Nat) < THEME_PATTERNS.length := by decide
    have hp : containsCIL (THEME_PATTERNS.get ⟨0, hi⟩).1.data s.data = true := h
    exact parse_theme_eq_of_first s 0 hi hp (fun j hj => absurd hj (Nat.not_lt_zero j))
  · intro s h1 h2
    have hi : (1 : Nat) < THEME_PATTERNS.length := by decide
    have hp : containsCIL (THEME_PATTERNS.get ⟨1, hi⟩).1.data s.data = true := h1
    refine parse_theme_eq_of_first s 1 hi hp ?_
    intro j hj
    have hj0 : j = 0 := Nat.lt_one_iff.mp hj
    subst hj0
    exact h2

/-- Witness for C6 on a text containing the longest phrase. -/
theorem c6_theme_first_match_witness :
    (parse "a Spring Earth celebration").theme = some "Spring Earth" :=
  c6_theme_first_match.2.1 "a Spring Earth celebration" (by decide)

/-- C7: when the remote interaction of the catalog mode raises (network
error, timeout, non-success status are a RequestException; anything else
is caught by the second handler), search returns exactly the list that an
unrecognized mode (the pure local fallback) returns for the same record,
whatever its credential, library availability and remote behaviour. -/
theorem c7_remote_failure_equals_fallback (p : SearchParameters)
    (k k2 : Option String) (ra2 : Bool) (oracle2 : String → CPDLOutcome) :
    search "cpdl" k true (fun _ => CPDLOutcome.requestError) p
      = search "local-fallback" k2 ra2 oracle2 p ∧
    search "cpdl" k true (fun _ => CPDLOutcome.otherError) p
      = search "local-fallback" k2 ra2 oracle2 p :=
  ⟨rfl, rfl⟩

/-- C8: process_instruction echoes the instruction unchanged, its
parsed_parameters entry is the field dictionary of the parse of that
instruction, and its result_count equals the length of its
search_results. -/
theorem c8_process_shape (apiType : String) (apiKey : Option String)
    (requestsAvailable : Bool) (oracle : String → CPDLOutcome) (s : String) :
    (processInstruction apiType apiKey requestsAvailable oracle s).instruction = s ∧
    (processInstruction apiType apiKey requestsAvailable oracle s).parsedParameters
      = parse s ∧
    (processInstruction apiType apiKey requestsAvailable oracle s).resultCount
      = (processInstruction apiType apiKey requestsAvailable oracle s).searchResults.length :=
  ⟨rfl, rfl, rfl⟩

/-- C9: every set field of a parsed record stays inside its fixed
vocabulary: voicing in the six tags, skill level in the three levels,
theme in the three phrases, technique only ever overtone singing. -/
theorem c9_vocabularies (s : String) :
    (∀ v, (parse s).voicing = some v →
        v ∈ (["SATB", "TB", "TTBB", "SSA", "SSAA", "SAB"] : List String)) ∧
    (∀ v, (parse s).skillLevel = some v →
        v ∈ (["beginning", "intermediate", "advanced"] : List String)) ∧
    (∀ v, (parse s).theme = some v →
        v ∈ (["Spring Earth", "Earth", "Spring"] : List String)) ∧
    (∀ v, (parse s).technique = some v → v = "overtone singing") := by
  refine ⟨?_, ?_, ?_, ?_⟩
  · intro v hv
    have hv2 : (VOICING_PATTERNS.find? (fun e => wbMatchCI e.1.data s.data)).map
        (fun e => e.2) = some v := hv
    obtain ⟨e, hfind, hev⟩ := Option.map_eq_some'.mp hv2
    have hmem := List.mem_of_find?_eq_some hfind
    subst hev
    fin_cases hmem <;> decide
  · intro v hv
    have hv2 : (SKILL_LEVEL_PATTERNS.find? (fun e => wbMatchCS e.1.data (lowerL s.data))).map
        (fun e => e.2) = some v := hv
    obtain ⟨e, hfind, hev⟩ := Option.map_eq_some'.mp hv2
    have hmem := List.mem_of_find?_eq_some hfind
    subst hev
    fin_cases hmem <;> decide
  · intro v hv
    have hv2 : (THEME_PATTERNS.find? (fun e => containsCIL e.1.data s.data)).map
        (fun e => e.2) = some v := hv
    obtain ⟨e, hfind, hev⟩ := Option.map_eq_some'.mp hv2
    have hmem := List.mem_of_find?_eq_some hfind
    subst hev
    fin_cases hmem <;> decide
  · intro v hv
    have hv2 : (if containsCSL "overtone singing".data (lowerL s.data)
        then some "overtone singing" else none) = some v := hv
    by_cases hc : containsCSL "overtone singing".data (lowerL s.data) = true
    · rw [if_pos hc] at hv2
      exact (Option.some.inj hv2).symm
    · rw [if_neg hc] at hv2
      exact absurd hv2 (by simp)

/-- Witness for C9 on an instruction that sets all four fields. -/
theorem c9_vocabularies_witness :
    ("SATB" ∈ (["SATB", "TB", "TTBB", "SSA", "SSAA", "SAB"] : List String)) ∧
    ("beginning" ∈ (["beginning", "intermediate", "advanced"] : List String)) ∧
    ("Spring Earth" ∈ (["Spring Earth", "Earth", "Spring"] : List String)) ∧
    ("overtone singing" : String) = "overtone singing" :=
  ⟨(c9_vocabularies "SATB beginning Spring Earth overtone singing").1 "SATB" (by decide),
   (c9_vocabularies "SATB beginning Spring Earth overtone singing").2.1 "beginning" (by decide),
   (c9_vocabularies "SATB beginning Spring Earth overtone singing").2.2.1 "Spring Earth"
     (by decide),
   (c9_vocabularies "SATB beginning Spring Earth overtone singing").2.2.2 "overtone singing"
     (by decide)⟩

/-- C10 counterexample: in "spring earthquake" the letters "earth" occur
only inside the longer word "earthquake" (there is no whole-word
occurrence), yet the parsed theme is "Spring Earth", not "Earth". -/
theorem c10_counterexample :
    containsCI "earth" "spring earthquake" = true ∧
    wbMatchCI "earth".data "spring earthquake".data = false ∧
    (parse "spring earthquake").theme = some "Spring Earth" ∧
    (parse "spring earthquake").theme ≠ some "Earth" := by
  decide

/-- C10 amended: theme matching applies no word-boundary check: every
instruction containing "earth" case-insensitively (even only inside a
longer word) whose text does not also contain "spring earth" parses to
theme "Earth". -/
theorem c10_theme_no_word_boundary (s : String)
    (h1 : containsCI "Earth" s = true)
    (h2 : containsCI "Spring Earth" s = false) :
    (parse s).theme = some "Earth" := by
  by_cases h3 : containsCIL "Earth theme".data s.data = true
  · have hi : (1 : Nat) < THEME_PATTERNS.length := by decide
    have hp : containsCIL (THEME_PATTERNS.get ⟨1, hi⟩).1.data s.data = true := h3
    refine parse_theme_eq_of_first s 1 hi hp ?_
    intro j hj
    have hj0 : j = 0 := Nat.lt_one_iff.mp hj
    subst hj0
    exact h2
  · have h3f : containsCIL "Earth theme".data s.data = false := by
      cases hx : containsCIL "Earth theme".data s.data
      · rfl
      · exact absurd hx h3
    have hi : (2 : Nat) < THEME_PATTERNS.length := by decide
    have hp : containsCIL (THEME_PATTERNS.get ⟨2, hi⟩).1.data s.data = true := h1
    refine parse_theme_eq_of_first s 2 hi hp ?_
    intro j hj
    cases j with
    | zero => exact h2
    | succ n =>
      have hn : n = 0 := by omega
      subst hn
      exact h3f

/-- Witness for C10 on an occurrence strictly inside a longer word. -/
theorem c10_theme_no_word_boundary_witness :
    (parse "earthquake").theme = some "Earth" :=
  c10_theme_no_word_boundary "earthquake" (by decide) (by decide)

end MusicFinder
